import Mathlib

/-!
Verification of the device-state synchronizer in
`src/providers/DevicesProvider/AudioInputProvider.tsx`.

The provider mirrors the media engine's audio-input device list and the
session manager's selected device into local state, reconciles stale
selections on enumeration-change events, and exposes a read-model hook
`useAudioInputs`.  We embed the provider shallowly:

* the reconciliation observer `audioInputsChanged` becomes a pure function
  from its inputs to the ordered list of external calls it performs;
* the mount/fetch lifecycle of the initial-enumeration effect becomes a
  step function on an explicit provider state;
* `useAudioInputs` becomes a total function returning `Except` (the thrown
  error becomes `Except.error`).
-/

namespace AudioInputProvider

/-- A device as reported by the browser / media engine.  The source only
reads `deviceId` and `label`; `kind` is carried along as data. -/
structure MediaDeviceInfo where
  deviceId : String
  label : String
  kind : String
  deriving DecidableEq, Repr

/-- The externally owned session manager, as read by the provider:
`selectedAudioInputDevice` (a device id or null) and
`selectedAudioInputDeviceLabel` (a label or null). -/
structure MeetingManager where
  selectedAudioInputDevice : Option String
  selectedAudioInputDeviceLabel : Option String
  deriving DecidableEq, Repr

/-- An external call the reconciliation observer can make:
`audioVideo.chooseAudioInputDevice` (with a device id or null) or
`meetingManager.selectAudioInputDevice` (with a device id or the sentinel
string such as "none"). -/
inductive DeviceCall where
  | chooseAudioInputDevice (device : Option String)
  | selectAudioInputDevice (id : String)
  deriving DecidableEq, Repr

/-- The reconciliation observer callback (second `useEffect`, lines 79-100
of `AudioInputProvider.tsx`), as the ordered list of external calls it
performs.  Inputs: the `initialized` ref, the cached
`selectedAudioInputDevice` state, the session manager, and the device list
`newAudioInputs` delivered by the change event.  In the source,
`newAudioInputs.find(device => device.deviceId === selectedAudioInputDevice)`
selects the existing device (a string never strictly equals null, so a null
selection finds nothing); `outdatedDevice` compares the found label and id
against the session manager with strict inequality. -/
def audioInputsChanged (initialized : Bool) (selectedAudioInputDevice : Option String)
    (meetingManager : MeetingManager) (newAudioInputs : List MediaDeviceInfo) :
    List DeviceCall :=
  if !initialized then
    []
  else
    match newAudioInputs.find? (fun device => some device.deviceId == selectedAudioInputDevice) with
    | some existingDevice =>
      let outdatedDevice :=
        (some existingDevice.label != meetingManager.selectedAudioInputDeviceLabel)
          || (some existingDevice.deviceId != meetingManager.selectedAudioInputDevice)
      if outdatedDevice then
        [DeviceCall.chooseAudioInputDevice none,
         DeviceCall.selectAudioInputDevice existingDevice.deviceId]
      else
        []
    | none => [DeviceCall.selectAudioInputDevice "none"]

/-- The provider's local state together with the liveness bookkeeping of the
initial-enumeration effect: the `audioInputs` state, the cached
`selectedAudioInputDevice` state, whether the effect's device-change
observer has been added, the `initialized` ref, and the effect's `isMounted`
flag. -/
structure ProviderState where
  audioInputs : List MediaDeviceInfo
  selectedAudioInputDevice : Option String
  observerAdded : Bool
  initialized : Bool
  isMounted : Bool
  deriving DecidableEq, Repr

/-- The events that drive the provider state: the initial enumeration fetch
resolving with a device list, a device-change event delivered to the
enumeration observer, the effect cleanup (teardown), and a
selection-change notification from the session manager. -/
inductive ProviderEvent where
  | fetchResolved (devices : List MediaDeviceInfo)
  | enumChanged (devices : List MediaDeviceInfo)
  | teardown
  | selectionChanged (sel : Option String)
  deriving DecidableEq, Repr

/-- One step of the provider lifecycle, following the source:

* `initAudioInput` resolving (lines 51-63): only if `isMounted` is still
  true does it write the device list, add the device-change observer and
  set `initialized.current = true`; otherwise it does nothing.
* a device-change event: the effect's observer (`setAudioInputs`) fires
  only while it is registered.
* the effect cleanup (lines 66-69): clears `isMounted` and removes the
  observer.
* a selection-change callback (lines 32-34): replaces the cached
  selection. -/
def step (s : ProviderState) : ProviderEvent → ProviderState
  | ProviderEvent.fetchResolved devices =>
    if s.isMounted then
      { s with audioInputs := devices, observerAdded := true, initialized := true }
    else
      s
  | ProviderEvent.enumChanged devices =>
    if s.observerAdded then { s with audioInputs := devices } else s
  | ProviderEvent.teardown =>
    { s with isMounted := false, observerAdded := false }
  | ProviderEvent.selectionChanged sel =>
    { s with selectedAudioInputDevice := sel }

/-- The provider state when the component mounts: empty device list, cached
selection initialised from the session manager, no observer, `initialized`
ref false, effect live. -/
def initialState (managerSelected : Option String) : ProviderState :=
  { audioInputs := []
    selectedAudioInputDevice := managerSelected
    observerAdded := false
    initialized := false
    isMounted := true }

/-- The context value exposed by the provider and returned by
`useAudioInputs`. -/
structure DeviceTypeContext where
  devices : List MediaDeviceInfo
  selectedDevice : Option String
  deriving DecidableEq, Repr

/-- The optional configuration accepted by `useAudioInputs`. -/
structure DeviceConfig where
  additionalDevices : Bool
  deriving DecidableEq, Repr

/-- `props && props.additionalDevices` from the source: whether extra
configured devices were requested. -/
def needAdditionalDevices (props : Option DeviceConfig) : Bool :=
  match props with
  | some p => p.additionalDevices
  | none => false

/-- The `useAudioInputs` hook (lines 119-140).  `additionalAudioInputs`
stands for the result of `getFormattedDropdownDeviceOptions(AUDIO_INPUT)`
(a statically configured list, or null), and `context` for the ambient
context value (null outside the provider).  The thrown error `useAudioInputs
must be used within AudioInputProvider` becomes `Except.error`; the check
runs before any device list is built. -/
def useAudioInputs (additionalAudioInputs : Option (List MediaDeviceInfo))
    (props : Option DeviceConfig) (context : Option DeviceTypeContext) :
    Except String DeviceTypeContext :=
  match context with
  | none => Except.error "useAudioInputs must be used within AudioInputProvider"
  | some ctx =>
    let devices :=
      if needAdditionalDevices props then
        match additionalAudioInputs with
        | some additional => ctx.devices ++ additional
        | none => ctx.devices
      else
        ctx.devices
    Except.ok { devices := devices, selectedDevice := ctx.selectedDevice }

/-- C2: after initialization, when the cached selected id is found in the
new device list but the found entry's label differs from the session
manager's current label, the observer performs exactly one
`chooseAudioInputDevice(null)` followed by exactly one
`selectAudioInputDevice` with the found device's id, and nothing else. -/
theorem stale_label_deselects_then_reselects
    (sel : Option String) (m : MeetingManager)
    (newAudioInputs : List MediaDeviceInfo) (d : MediaDeviceInfo)
    (hfind : newAudioInputs.find? (fun device => some device.deviceId == sel) = some d)
    (hlabel : some d.label ≠ m.selectedAudioInputDeviceLabel) :
    audioInputsChanged true sel m newAudioInputs
      = [DeviceCall.chooseAudioInputDevice none,
         DeviceCall.selectAudioInputDevice d.deviceId] := by
  simp only [audioInputsChanged, Bool.not_true, Bool.false_eq_true, if_false, hfind]
  have : (some d.label != m.selectedAudioInputDeviceLabel) = true := by
    simpa using hlabel
  simp [this]

/-- Witness for C2: the spec's example, device list `[{id: a, label: Mic B}]`
with cached selection `a` while the manager still reports label `Mic A`. -/
theorem stale_label_deselects_then_reselects_witness :
    audioInputsChanged true (some "a")
      { selectedAudioInputDevice := some "a",
        selectedAudioInputDeviceLabel := some "Mic A" }
      [{ deviceId := "a", label := "Mic B", kind := "audioinput" }]
      = [DeviceCall.chooseAudioInputDevice none,
         DeviceCall.selectAudioInputDevice "a"] :=
  stale_label_deselects_then_reselects (some "a") _ _
    { deviceId := "a", label := "Mic B", kind := "audioinput" }
    (by decide) (by decide)

/-- C3: after initialization, when the cached selected id is absent from
the new device list, the observer performs exactly one
`selectAudioInputDevice("none")` call and nothing else. -/
theorem absent_selection_selects_none
    (sel : Option String) (m : MeetingManager)
    (newAudioInputs : List MediaDeviceInfo)
    (hfind : newAudioInputs.find? (fun device => some device.deviceId == sel) = none) :
    audioInputsChanged true sel m newAudioInputs
      = [DeviceCall.selectAudioInputDevice "none"] := by
  simp [audioInputsChanged, hfind]

/-- Witness for C3: the spec's example, a change event delivering
`[{id: b, label: Mic B}]` while device `a` is selected. -/
theorem absent_selection_selects_none_witness :
    audioInputsChanged true (some "a")
      { selectedAudioInputDevice := some "a",
        selectedAudioInputDeviceLabel := some "Mic A" }
      [{ deviceId := "b", label := "Mic B", kind := "audioinput" }]
      = [DeviceCall.selectAudioInputDevice "none"] :=
  absent_selection_selects_none (some "a") _ _ (by decide)

/-- C4: after initialization, when the cached selected id is found in the
new list and the found entry's id and label both agree with what the
session manager currently reports, the observer performs no call at all. -/
theorem unchanged_selection_no_side_effect
    (sel : Option String) (m : MeetingManager)
    (newAudioInputs : List MediaDeviceInfo) (d : MediaDeviceInfo)
    (hfind : newAudioInputs.find? (fun device => some device.deviceId == sel) = some d)
    (hlabel : some d.label = m.selectedAudioInputDeviceLabel)
    (hid : some d.deviceId = m.selectedAudioInputDevice) :
    audioInputsChanged true sel m newAudioInputs = [] := by
  simp [audioInputsChanged, hfind, hlabel, hid]

/-- Witness for C4: device `a` with label `Mic A` present in the list and
matching the manager's reported selection exactly; no call occurs. -/
theorem unchanged_selection_no_side_effect_witness :
    audioInputsChanged true (some "a")
      { selectedAudioInputDevice := some "a",
        selectedAudioInputDeviceLabel := some "Mic A" }
      [{ deviceId := "a", label := "Mic A", kind := "audioinput" }]
      = [] :=
  unchanged_selection_no_side_effect (some "a") _ _
    { deviceId := "a", label := "Mic A", kind := "audioinput" }
    (by decide) (by decide) (by decide)

/-- C5: before the `initialized` flag is set, every sequence of
enumeration-change events produces no reconciliation call whatsoever. -/
theorem no_side_effect_before_initialized
    (sel : Option String) (m : MeetingManager)
    (events : List (List MediaDeviceInfo)) :
    (events.map (audioInputsChanged false sel m)).flatten = [] := by
  induction events with
  | nil => rfl
  | cons e es ih => simp [audioInputsChanged, ih]

/-- C10: after initialization, when the cached selection is null or the
sentinel "none" and no enumerated device carries the id "none", every
change event in a sequence takes the absent branch and issues another
`selectAudioInputDevice("none")` call: reconciliation is not quiescent
when nothing is selected. -/
theorem empty_selection_not_quiescent
    (sel : Option String) (m : MeetingManager)
    (events : List (List MediaDeviceInfo))
    (hsel : sel = none ∨ sel = some "none")
    (hnone : ∀ l ∈ events, ∀ d ∈ l, d.deviceId ≠ "none") :
    events.map (audioInputsChanged true sel m)
      = events.map (fun _ => [DeviceCall.selectAudioInputDevice "none"]) := by
  induction events with
  | nil => rfl
  | cons e es ih =>
    have hhead : e.find? (fun device => some device.deviceId == sel) = none := by
      rw [List.find?_eq_none]
      intro d hd
      rcases hsel with h | h <;> subst h <;> simp
      exact hnone e (by simp) d hd
    have htail : ∀ l ∈ es, ∀ d ∈ l, d.deviceId ≠ "none" := by
      intro l hl
      exact hnone l (by simp [hl])
    simp only [List.map_cons, ih htail]
    rw [absent_selection_selects_none sel m e hhead]

/-- Witness for C10: two change events delivered while the cached
selection is the sentinel "none"; each triggers a fresh select-none call. -/
theorem empty_selection_not_quiescent_witness :
    [[({ deviceId := "a", label := "Mic A", kind := "audioinput" } : MediaDeviceInfo)], []].map
        (audioInputsChanged true (some "none")
          { selectedAudioInputDevice := some "none",
            selectedAudioInputDeviceLabel := none })
      = [[DeviceCall.selectAudioInputDevice "none"],
         [DeviceCall.selectAudioInputDevice "none"]] :=
  empty_selection_not_quiescent (some "none") _ _
    (Or.inr rfl) (by decide)

/-- C1: if the effect has been torn down (the `isMounted` flag cleared)
before the initial enumeration fetch resolves, the resolution is a no-op:
the provider state is unchanged — in particular the device list is not
written, no observer is added and the `initialized` ref is not set. -/
theorem fetch_after_teardown_no_state_write
    (s : ProviderState) (devices : List MediaDeviceInfo)
    (h : s.isMounted = false) :
    step s (ProviderEvent.fetchResolved devices) = s := by
  simp [step, h]

/-- Witness for C1: a torn-down state receiving a late fetch result is
left exactly as it was. -/
theorem fetch_after_teardown_no_state_write_witness :
    step
      (step (initialState (some "a")) ProviderEvent.teardown)
      (ProviderEvent.fetchResolved
        [{ deviceId := "a", label := "Mic A", kind := "audioinput" }])
      = step (initialState (some "a")) ProviderEvent.teardown :=
  fetch_after_teardown_no_state_write _ _ (by decide)

/-- C8: the `initialized` flag is one-way: it starts false, no step ever
clears it, and it can only become true through the enumeration fetch
resolving while the effect is still mounted. -/
theorem initialized_one_way
    (managerSelected : Option String) (s : ProviderState) (e : ProviderEvent) :
    (initialState managerSelected).initialized = false
      ∧ (s.initialized = true → (step s e).initialized = true)
      ∧ ((step s e).initialized = true →
          s.initialized = true
            ∨ (s.isMounted = true ∧ ∃ ds, e = ProviderEvent.fetchResolved ds)) := by
  refine ⟨rfl, ?_, ?_⟩ <;> cases e <;> simp only [step] <;>
    (try split) <;> simp_all

/-- Witness for C8: instantiated at the freshly mounted state and the
fetch-resolution event; the fetch sets the flag and the only-via-fetch
disjunct is realised. -/
theorem initialized_one_way_witness :
    (initialState none).initialized = false
      ∧ ((initialState none).initialized = true →
          (step (initialState none)
            (ProviderEvent.fetchResolved [])).initialized = true)
      ∧ ((step (initialState none)
            (ProviderEvent.fetchResolved [])).initialized = true →
          (initialState none).initialized = true
            ∨ ((initialState none).isMounted = true
                ∧ ∃ ds, ProviderEvent.fetchResolved []
                    = ProviderEvent.fetchResolved ds)) :=
  initialized_one_way none (initialState none) (ProviderEvent.fetchResolved [])

/-- C6: when the `additionalDevices` flag is set and the configured extra
list exists, `useAudioInputs` returns the hardware devices first, in their
original order, with the configured devices appended strictly after them. -/
theorem additional_devices_appended_after
    (additional : List MediaDeviceInfo) (p : DeviceConfig)
    (ctx : DeviceTypeContext) (h : p.additionalDevices = true) :
    useAudioInputs (some additional) (some p) (some ctx)
      = Except.ok { devices := ctx.devices ++ additional,
                    selectedDevice := ctx.selectedDevice } := by
  simp [useAudioInputs, needAdditionalDevices, h]

/-- Witness for C6: one hardware device and one configured extra device;
the extra device comes second. -/
theorem additional_devices_appended_after_witness :
    useAudioInputs
      (some [{ deviceId := "none", label := "None", kind := "audioinput" }])
      (some { additionalDevices := true })
      (some { devices := [{ deviceId := "a", label := "Mic A", kind := "audioinput" }],
              selectedDevice := some "a" })
      = Except.ok
          { devices := [{ deviceId := "a", label := "Mic A", kind := "audioinput" },
                        { deviceId := "none", label := "None", kind := "audioinput" }],
            selectedDevice := some "a" } :=
  additional_devices_appended_after _ _ _ rfl

/-- C7: called outside the provider (null context) `useAudioInputs` raises
its misuse error before producing any device list; called inside the
provider it always returns a value, never that error. -/
theorem context_check_errors_iff_outside
    (additional : Option (List MediaDeviceInfo)) (props : Option DeviceConfig) :
    useAudioInputs additional props none
        = Except.error "useAudioInputs must be used within AudioInputProvider"
      ∧ ∀ ctx : DeviceTypeContext,
          (useAudioInputs additional props (some ctx)).isOk = true := by
  exact ⟨rfl, fun ctx => rfl⟩

/-- C9: `useAudioInputs` is a pure read of the context: the returned
selection always equals the cached one, and the returned list equals the
stored list exactly whenever the flag is unset or the configured extra
list is null.  (The append in the flag-set case builds a new list; the
`ctx` argument itself is never altered, as every definition here is pure.) -/
theorem read_model_pure_read
    (additional : Option (List MediaDeviceInfo)) (props : Option DeviceConfig)
    (ctx : DeviceTypeContext) :
    ((useAudioInputs additional props (some ctx)).toOption.map
        (fun r => r.selectedDevice) = some ctx.selectedDevice)
      ∧ (needAdditionalDevices props = false →
          useAudioInputs additional props (some ctx) = Except.ok ctx)
      ∧ (useAudioInputs none props (some ctx) = Except.ok ctx) := by
  refine ⟨?_, ?_, ?_⟩
  · cases additional <;> cases h : needAdditionalDevices props <;>
      simp [useAudioInputs, h] <;> exact ⟨_, rfl, rfl⟩
  · intro h
    simp [useAudioInputs, h]
  · cases h : needAdditionalDevices props <;> simp [useAudioInputs, h]

/-- Witness for C9: with the flag unset the stored context is returned
unchanged, and the selection is always passed through. -/
theorem read_model_pure_read_witness :
    ((useAudioInputs
        (some [{ deviceId := "none", label := "None", kind := "audioinput" }])
        (some { additionalDevices := false })
        (some { devices := [], selectedDevice := some "a" })).toOption.map
          (fun r => r.selectedDevice) = some (some "a"))
      ∧ (needAdditionalDevices (some { additionalDevices := false }) = false →
          useAudioInputs
            (some [{ deviceId := "none", label := "None", kind := "audioinput" }])
            (some { additionalDevices := false })
            (some { devices := [], selectedDevice := some "a" })
            = Except.ok { devices := [], selectedDevice := some "a" })
      ∧ (useAudioInputs none (some { additionalDevices := false })
            (some { devices := [], selectedDevice := some "a" })
            = Except.ok { devices := [], selectedDevice := some "a" }) :=
  read_model_pure_read
    (some [{ deviceId := "none", label := "None", kind := "audioinput" }])
    (some { additionalDevices := false })
    { devices := [], selectedDevice := some "a" }

end AudioInputProvider
